import Mathlib

/-!
Shallow embedding of `scripts/reproduce-mlflow-search-bug.py`.

The script is a linear probe against a remote MLflow tracking service:
it connects, creates a registered model (tolerating an "already exists"
error), creates a model version, fetches version "1" directly, runs a
filtered search, and prints a diagnosis.  We model the remote service as
an abstract client whose five operations each either return a value or
raise an exception of an abstract type `ε`; `str : ε → String` plays the
role of the Python expression str(e).  A run produces the ordered trace of remote
calls attempted, the list of lines printed to standard output, and the
termination outcome (normal completion, or a propagated exception).
-/

/-- A tag key/value pair, as passed in the tag payloads of the script. -/
structure Tag where
  key : String
  value : String
deriving DecidableEq

/-- The only field of a version record the script reads is `.version`
(the direct-get print on line 43). -/
structure ModelVersion where
  version : String
deriving DecidableEq

/-- The abstract remote client: one field per remote operation the script
performs, named as in the script.  Each operation either returns a
value or raises an exception of type `ε`. -/
structure Client (ε : Type) where
  set_tracking_uri : String → Except ε Unit
  create_registered_model : String → List Tag → Except ε Unit
  create_model_version : String → String → List Tag → Except ε ModelVersion
  get_model_version : String → String → Except ε ModelVersion
  search_model_versions : String → Except ε (List ModelVersion)

/-- A remote call attempted by the script, with the exact arguments passed. -/
inductive Call where
  | set_tracking_uri (uri : String)
  | create_registered_model (name : String) (tags : List Tag)
  | create_model_version (name source : String) (tags : List Tag)
  | get_model_version (name version : String)
  | search_model_versions (filter_string : String)
deriving DecidableEq

/-- The observable result of one run of the script: the ordered trace of
remote calls attempted, the lines printed to standard output, and the
termination outcome (`Except.ok ()` = normal exit, `Except.error e` = the
process aborts with the uncaught exception `e`). -/
structure RunResult (ε : Type) where
  calls : List Call
  output : List String
  outcome : Except ε Unit

/-- Line 18: `MODEL_NAME = "test-search-bug"`. -/
def MODEL_NAME : String := "test-search-bug"

/-- Line 24: the tag payload of `create_registered_model`. -/
def createTags : List Tag := [⟨"mlflow.prompt.is_prompt", "true"⟩]

/-- Line 37: the tag payload of `create_model_version`; the value is the
literal prompt-template string of the script, doubled braces included. -/
def versionTags : List Tag := [⟨"mlflow.prompt.text", "Hello \x7b\x7bname\x7d\x7d!"⟩]

/-- Line 36: the source locator, the f-string splicing MODEL_NAME after the
scheme. -/
def sourceLocator : String := "mlflow-artifacts:/" ++ MODEL_NAME

/-- Line 47: the filter expression, the f-string splicing MODEL_NAME between
single quotes after name=. -/
def searchFilter : String := "name=\x27" ++ MODEL_NAME ++ "\x27"

/-- `startsWithL needle hay` is true when the char list `needle` is an
initial segment of `hay`. -/
def startsWithL : List Char → List Char → Bool
  | [], _ => true
  | _ :: _, [] => false
  | n :: ns, h :: hs => n == h && startsWithL ns hs

/-- `containsSub needle hay` is true when `needle` occurs contiguously
somewhere in `hay`. -/
def containsSub (needle : List Char) : List Char → Bool
  | [] => startsWithL needle []
  | h :: t => startsWithL needle (h :: t) || containsSub needle t

/-- The Python membership test needle in hay on strings, as used on line 28
to look for ALREADY_EXISTS in str(e): contiguous, case-sensitive substring
containment. -/
def strContains (hay needle : String) : Bool :=
  containsSub needle.data hay.data

/-- Lines 48–52: print the search count; when the count is zero, also print
the two BUG CONFIRMED lines (each leading `\n` of a Python `print` call is
kept in the line it was printed with). -/
def diagnose (versions : List ModelVersion) : List String :=
  ["Search returned: " ++ toString versions.length ++ " versions (expected: >= 1)"] ++
    (if versions.length = 0 then
      ["\n*** BUG CONFIRMED: search_model_versions returns empty ***",
       "The endpoint returns \x7b\x7d regardless of filter."]
     else [])

/-- Lines 33–52 of the script, after the registered model is ensured:
create a version, fetch version "1" directly, search, diagnose.
`calls` and `out` are the trace and output accumulated so far. -/
def afterEnsure {ε : Type} (c : Client ε) (calls : List Call) (out : List String) :
    RunResult ε :=
  match c.create_model_version MODEL_NAME sourceLocator versionTags with
  | Except.error e =>
      ⟨calls ++ [Call.create_model_version MODEL_NAME sourceLocator versionTags], out,
        Except.error e⟩
  | Except.ok _ =>
    match c.get_model_version MODEL_NAME ("1") with
    | Except.error e =>
        ⟨calls ++ [Call.create_model_version MODEL_NAME sourceLocator versionTags,
                   Call.get_model_version MODEL_NAME ("1")],
          out ++ ["Created version"], Except.error e⟩
    | Except.ok v =>
      match c.search_model_versions searchFilter with
      | Except.error e =>
          ⟨calls ++ [Call.create_model_version MODEL_NAME sourceLocator versionTags,
                     Call.get_model_version MODEL_NAME ("1"),
                     Call.search_model_versions searchFilter],
            out ++ ["Created version", "Direct get works: v" ++ v.version,
                    "\nTrying search_model_versions..."],
            Except.error e⟩
      | Except.ok versions =>
          ⟨calls ++ [Call.create_model_version MODEL_NAME sourceLocator versionTags,
                     Call.get_model_version MODEL_NAME ("1"),
                     Call.search_model_versions searchFilter],
            out ++ ["Created version", "Direct get works: v" ++ v.version,
                    "\nTrying search_model_versions..."] ++ diagnose versions,
            Except.ok ()⟩

/-- The whole script (lines 14–52): connect, then try
`create_registered_model`, recovering exactly when `str(e)` contains
`"ALREADY_EXISTS"` (lines 21–31), then the rest of the probe. -/
def runScript {ε : Type} (str : ε → String) (c : Client ε) : RunResult ε :=
  match c.set_tracking_uri ("http://localhost:5000") with
  | Except.error e => ⟨[Call.set_tracking_uri ("http://localhost:5000")], [], Except.error e⟩
  | Except.ok _ =>
    match c.create_registered_model MODEL_NAME createTags with
    | Except.ok _ =>
        afterEnsure c
          [Call.set_tracking_uri ("http://localhost:5000"),
           Call.create_registered_model MODEL_NAME createTags]
          ["Created model: " ++ MODEL_NAME]
    | Except.error e =>
        if strContains (str e) ("ALREADY_EXISTS") then
          afterEnsure c
            [Call.set_tracking_uri ("http://localhost:5000"),
             Call.create_registered_model MODEL_NAME createTags]
            ["Model " ++ MODEL_NAME ++ " already exists"]
        else
          ⟨[Call.set_tracking_uri ("http://localhost:5000"),
            Call.create_registered_model MODEL_NAME createTags], [], Except.error e⟩

/-- The process exit code of a run: 0 on normal completion, 1 (the Python
exit status for an uncaught exception) otherwise. -/
def exitCode {ε : Type} (r : RunResult ε) : Nat :=
  match r.outcome with
  | Except.ok _ => 0
  | Except.error _ => 1

/-- The full trace of the five remote calls, in the order the script
performs them when nothing aborts. -/
def fullCalls : List Call :=
  [Call.set_tracking_uri ("http://localhost:5000"),
   Call.create_registered_model MODEL_NAME createTags,
   Call.create_model_version MODEL_NAME sourceLocator versionTags,
   Call.get_model_version MODEL_NAME ("1"),
   Call.search_model_versions searchFilter]

/-! ### Branch characterizations of the run function -/

lemma runScript_connect_error {ε : Type} (str : ε → String) (c : Client ε) (e : ε)
    (h : c.set_tracking_uri ("http://localhost:5000") = Except.error e) :
    runScript str c =
      ⟨[Call.set_tracking_uri ("http://localhost:5000")], [], Except.error e⟩ := by
  unfold runScript
  rw [h]

lemma runScript_create_ok {ε : Type} (str : ε → String) (c : Client ε)
    (h1 : c.set_tracking_uri ("http://localhost:5000") = Except.ok ())
    (h2 : c.create_registered_model MODEL_NAME createTags = Except.ok ()) :
    runScript str c =
      afterEnsure c
        [Call.set_tracking_uri ("http://localhost:5000"),
         Call.create_registered_model MODEL_NAME createTags]
        ["Created model: " ++ MODEL_NAME] := by
  unfold runScript
  rw [h1, h2]

lemma runScript_create_already {ε : Type} (str : ε → String) (c : Client ε) (e : ε)
    (h1 : c.set_tracking_uri ("http://localhost:5000") = Except.ok ())
    (h2 : c.create_registered_model MODEL_NAME createTags = Except.error e)
    (h3 : strContains (str e) ("ALREADY_EXISTS") = true) :
    runScript str c =
      afterEnsure c
        [Call.set_tracking_uri ("http://localhost:5000"),
         Call.create_registered_model MODEL_NAME createTags]
        ["Model " ++ MODEL_NAME ++ " already exists"] := by
  unfold runScript
  rw [h1, h2]
  simp [h3]

lemma runScript_create_fatal {ε : Type} (str : ε → String) (c : Client ε) (e : ε)
    (h1 : c.set_tracking_uri ("http://localhost:5000") = Except.ok ())
    (h2 : c.create_registered_model MODEL_NAME createTags = Except.error e)
    (h3 : strContains (str e) ("ALREADY_EXISTS") = false) :
    runScript str c =
      ⟨[Call.set_tracking_uri ("http://localhost:5000"),
        Call.create_registered_model MODEL_NAME createTags], [], Except.error e⟩ := by
  unfold runScript
  rw [h1, h2]
  simp [h3]

lemma afterEnsure_version_error {ε : Type} (c : Client ε) (calls : List Call)
    (out : List String) (e : ε)
    (h : c.create_model_version MODEL_NAME sourceLocator versionTags = Except.error e) :
    afterEnsure c calls out =
      ⟨calls ++ [Call.create_model_version MODEL_NAME sourceLocator versionTags], out,
        Except.error e⟩ := by
  unfold afterEnsure
  rw [h]

lemma afterEnsure_get_error {ε : Type} (c : Client ε) (calls : List Call)
    (out : List String) (v : ModelVersion) (e : ε)
    (h1 : c.create_model_version MODEL_NAME sourceLocator versionTags = Except.ok v)
    (h2 : c.get_model_version MODEL_NAME ("1") = Except.error e) :
    afterEnsure c calls out =
      ⟨calls ++ [Call.create_model_version MODEL_NAME sourceLocator versionTags,
                 Call.get_model_version MODEL_NAME ("1")],
        out ++ ["Created version"], Except.error e⟩ := by
  unfold afterEnsure
  rw [h1, h2]

lemma afterEnsure_search_error {ε : Type} (c : Client ε) (calls : List Call)
    (out : List String) (v w : ModelVersion) (e : ε)
    (h1 : c.create_model_version MODEL_NAME sourceLocator versionTags = Except.ok v)
    (h2 : c.get_model_version MODEL_NAME ("1") = Except.ok w)
    (h3 : c.search_model_versions searchFilter = Except.error e) :
    afterEnsure c calls out =
      ⟨calls ++ [Call.create_model_version MODEL_NAME sourceLocator versionTags,
                 Call.get_model_version MODEL_NAME ("1"),
                 Call.search_model_versions searchFilter],
        out ++ ["Created version", "Direct get works: v" ++ w.version,
                "\nTrying search_model_versions..."],
        Except.error e⟩ := by
  unfold afterEnsure
  rw [h1, h2, h3]

lemma afterEnsure_search_ok {ε : Type} (c : Client ε) (calls : List Call)
    (out : List String) (v w : ModelVersion) (versions : List ModelVersion)
    (h1 : c.create_model_version MODEL_NAME sourceLocator versionTags = Except.ok v)
    (h2 : c.get_model_version MODEL_NAME ("1") = Except.ok w)
    (h3 : c.search_model_versions searchFilter = Except.ok versions) :
    afterEnsure c calls out =
      ⟨calls ++ [Call.create_model_version MODEL_NAME sourceLocator versionTags,
                 Call.get_model_version MODEL_NAME ("1"),
                 Call.search_model_versions searchFilter],
        out ++ ["Created version", "Direct get works: v" ++ w.version,
                "\nTrying search_model_versions..."] ++ diagnose versions,
        Except.ok ()⟩ := by
  unfold afterEnsure
  rw [h1, h2, h3]

/-! ### Substring containment: `strContains` agrees with the mathematical
definition of contiguous substring occurrence -/

lemma startsWithL_iff (n h : List Char) :
    startsWithL n h = true ↔ ∃ t, h = n ++ t := by
  induction n generalizing h with
  | nil =>
    simp [startsWithL]
  | cons a as ih =>
    cases h with
    | nil => simp [startsWithL]
    | cons b bs =>
      simp only [startsWithL, Bool.and_eq_true, beq_iff_eq, ih, List.cons_append,
        List.cons.injEq]
      constructor
      · rintro ⟨rfl, t, rfl⟩
        exact ⟨t, rfl, rfl⟩
      · rintro ⟨t, rfl, rfl⟩
        exact ⟨rfl, t, rfl⟩

lemma containsSub_iff (n h : List Char) :
    containsSub n h = true ↔ ∃ p t, h = p ++ n ++ t := by
  induction h with
  | nil =>
    simp only [containsSub, startsWithL_iff]
    constructor
    · rintro ⟨t, ht⟩
      exact ⟨[], t, by simpa using ht⟩
    · rintro ⟨p, t, ht⟩
      rcases List.append_eq_nil.mp ht.symm with ⟨h1, h2⟩
      rcases List.append_eq_nil.mp h1 with ⟨h3, h4⟩
      exact ⟨[], by simp [h4]⟩
  | cons a as ih =>
    simp only [containsSub, Bool.or_eq_true, startsWithL_iff, ih]
    constructor
    · rintro (⟨t, ht⟩ | ⟨p, t, ht⟩)
      · exact ⟨[], t, by simpa using ht⟩
      · exact ⟨a :: p, t, by simp [ht]⟩
    · rintro ⟨p, t, ht⟩
      cases p with
      | nil =>
        exact Or.inl ⟨t, by simpa using ht⟩
      | cons q qs =>
        simp only [List.cons_append, List.cons.injEq] at ht
        exact Or.inr ⟨qs, t, ht.2⟩

lemma strContains_iff (hay needle : String) :
    strContains hay needle = true ↔ ∃ p q : String, hay = p ++ needle ++ q := by
  unfold strContains
  rw [containsSub_iff]
  constructor
  · rintro ⟨p, t, ht⟩
    exact ⟨⟨p⟩, ⟨t⟩, String.ext ht⟩
  · rintro ⟨p, q, hpq⟩
    exact ⟨p.data, q.data, congrArg String.data hpq⟩

/-! ### String facts used to separate printed lines -/

lemma appendAssocS (s t u : String) : s ++ t ++ u = s ++ (t ++ u) :=
  String.ext (List.append_assoc s.data t.data u.data)

lemma append_head_ne {a b : Char} {l m : List Char} (p t u : String)
    (hp : p.data = a :: l) (ht : t.data = b :: m) (hab : a ≠ b) : p ++ u ≠ t := by
  intro h
  have h2 : p.data ++ u.data = t.data := congrArg String.data h
  rw [hp, ht, List.cons_append] at h2
  simp only [List.cons.injEq] at h2
  exact hab h2.1

lemma direct_line_ne_bug (u : String) :
    "Direct get works: v" ++ u ≠
      "\n*** BUG CONFIRMED: search_model_versions returns empty ***" :=
  append_head_ne _ _ u rfl rfl (by decide)

lemma count_line_ne_bug (n : Nat) :
    "Search returned: " ++ toString n ++ " versions (expected: >= 1)" ≠
      "\n*** BUG CONFIRMED: search_model_versions returns empty ***" := by
  rw [appendAssocS]
  exact append_head_ne _ _ _ rfl rfl (by decide)

/-! ### Concrete clients, used to exhibit satisfiable hypotheses -/

/-- A version record whose identifier is "1". -/
def vOne : ModelVersion := ⟨"1"⟩

/-- A client on which every call succeeds and the search comes back empty:
the situation the script was written to demonstrate. -/
def okEmptyClient : Client String :=
  ⟨fun _ => Except.ok (), fun _ _ => Except.ok (), fun _ _ _ => Except.ok vOne,
   fun _ _ => Except.ok vOne, fun _ => Except.ok []⟩

/-- A client on which every call succeeds and the search finds the version. -/
def okFoundClient : Client String :=
  ⟨fun _ => Except.ok (), fun _ _ => Except.ok (), fun _ _ _ => Except.ok vOne,
   fun _ _ => Except.ok vOne, fun _ => Except.ok [vOne]⟩

/-- A client whose create-entity call fails with an ALREADY_EXISTS error
and on which everything else succeeds. -/
def alreadyClient : Client String :=
  ⟨fun _ => Except.ok (),
   fun _ _ => Except.error ("RESOURCE_ALREADY_EXISTS: registered model exists"),
   fun _ _ _ => Except.ok vOne, fun _ _ => Except.ok vOne, fun _ => Except.ok [vOne]⟩

/-- A client whose create-entity call fails with an unrelated error. -/
def fatalClient : Client String :=
  ⟨fun _ => Except.ok (),
   fun _ _ => Except.error ("INTERNAL_ERROR: boom"),
   fun _ _ _ => Except.ok vOne, fun _ _ => Except.ok vOne, fun _ => Except.ok [vOne]⟩

example : (runScript id okEmptyClient).output =
    ["Created model: test-search-bug", "Created version", "Direct get works: v1",
     "\nTrying search_model_versions...",
     "Search returned: 0 versions (expected: >= 1)",
     "\n*** BUG CONFIRMED: search_model_versions returns empty ***",
     "The endpoint returns \x7b\x7d regardless of filter."] := by
  decide

example : (runScript id okFoundClient).output =
    ["Created model: test-search-bug", "Created version", "Direct get works: v1",
     "\nTrying search_model_versions...",
     "Search returned: 1 versions (expected: >= 1)"] := by
  decide

example : (runScript id alreadyClient).output.head? =
    some ("Model test-search-bug already exists") := by
  decide

example : (runScript id fatalClient).calls.length = 2 ∧
    (runScript id fatalClient).output = [] := by
  decide

/-! ### Run-shape lemmas shared by the claim theorems -/

lemma afterEnsure_ok_shape {ε : Type} (c : Client ε) (calls : List Call)
    (out : List String)
    (hok : (afterEnsure c calls out).outcome = Except.ok ()) :
    ∃ (v w : ModelVersion) (versions : List ModelVersion),
      c.create_model_version MODEL_NAME sourceLocator versionTags = Except.ok v ∧
      c.get_model_version MODEL_NAME ("1") = Except.ok w ∧
      c.search_model_versions searchFilter = Except.ok versions ∧
      afterEnsure c calls out =
        ⟨calls ++ [Call.create_model_version MODEL_NAME sourceLocator versionTags,
                   Call.get_model_version MODEL_NAME ("1"),
                   Call.search_model_versions searchFilter],
          out ++ ["Created version", "Direct get works: v" ++ w.version,
                  "\nTrying search_model_versions..."] ++ diagnose versions,
          Except.ok ()⟩ := by
  cases h1 : c.create_model_version MODEL_NAME sourceLocator versionTags with
  | error e =>
    rw [afterEnsure_version_error c calls out e h1] at hok
    simp at hok
  | ok v =>
    cases h2 : c.get_model_version MODEL_NAME ("1") with
    | error e =>
      rw [afterEnsure_get_error c calls out v e h1 h2] at hok
      simp at hok
    | ok w =>
      cases h3 : c.search_model_versions searchFilter with
      | error e =>
        rw [afterEnsure_search_error c calls out v w e h1 h2 h3] at hok
        simp at hok
      | ok versions =>
        exact ⟨v, w, versions, rfl, rfl, rfl,
          afterEnsure_search_ok c calls out v w versions h1 h2 h3⟩

lemma run_ok_shape {ε : Type} (str : ε → String) (c : Client ε)
    (hok : (runScript str c).outcome = Except.ok ()) :
    ∃ (first : String) (v w : ModelVersion) (versions : List ModelVersion),
      c.create_model_version MODEL_NAME sourceLocator versionTags = Except.ok v ∧
      c.get_model_version MODEL_NAME ("1") = Except.ok w ∧
      c.search_model_versions searchFilter = Except.ok versions ∧
      runScript str c =
        ⟨[Call.set_tracking_uri ("http://localhost:5000"),
          Call.create_registered_model MODEL_NAME createTags,
          Call.create_model_version MODEL_NAME sourceLocator versionTags,
          Call.get_model_version MODEL_NAME ("1"),
          Call.search_model_versions searchFilter],
          [first, "Created version", "Direct get works: v" ++ w.version,
           "\nTrying search_model_versions..."] ++ diagnose versions,
          Except.ok ()⟩ ∧
      (first = "Created model: " ++ MODEL_NAME ∨
       first = "Model " ++ MODEL_NAME ++ " already exists") := by
  cases h1 : c.set_tracking_uri ("http://localhost:5000") with
  | error e =>
    rw [runScript_connect_error str c e h1] at hok
    simp at hok
  | ok u =>
    cases u
    cases h2 : c.create_registered_model MODEL_NAME createTags with
    | ok u =>
      cases u
      rw [runScript_create_ok str c h1 h2] at hok ⊢
      obtain ⟨v, w, versions, hv, hw, hs, heq⟩ := afterEnsure_ok_shape c _ _ hok
      refine ⟨"Created model: " ++ MODEL_NAME, v, w, versions, hv, hw, hs, ?_, Or.inl rfl⟩
      rw [heq]
      simp
    | error e =>
      cases h3 : strContains (str e) ("ALREADY_EXISTS") with
      | false =>
        rw [runScript_create_fatal str c e h1 h2 h3] at hok
        simp at hok
      | true =>
        rw [runScript_create_already str c e h1 h2 h3] at hok ⊢
        obtain ⟨v, w, versions, hv, hw, hs, heq⟩ := afterEnsure_ok_shape c _ _ hok
        refine ⟨"Model " ++ MODEL_NAME ++ " already exists", v, w, versions, hv, hw, hs,
          ?_, Or.inr rfl⟩
        rw [heq]
        simp

lemma afterEnsure_error_source {ε : Type} (c : Client ε) (calls : List Call)
    (out : List String) (e : ε)
    (he : (afterEnsure c calls out).outcome = Except.error e) :
    c.create_model_version MODEL_NAME sourceLocator versionTags = Except.error e ∨
    c.get_model_version MODEL_NAME ("1") = Except.error e ∨
    c.search_model_versions searchFilter = Except.error e := by
  cases h1 : c.create_model_version MODEL_NAME sourceLocator versionTags with
  | error e2 =>
    rw [afterEnsure_version_error c calls out e2 h1] at he
    simp only [Except.error.injEq] at he
    subst he
    exact Or.inl rfl
  | ok v =>
    cases h2 : c.get_model_version MODEL_NAME ("1") with
    | error e2 =>
      rw [afterEnsure_get_error c calls out v e2 h1 h2] at he
      simp only [Except.error.injEq] at he
      subst he
      exact Or.inr (Or.inl rfl)
    | ok w =>
      cases h3 : c.search_model_versions searchFilter with
      | error e2 =>
        rw [afterEnsure_search_error c calls out v w e2 h1 h2 h3] at he
        simp only [Except.error.injEq] at he
        subst he
        exact Or.inr (Or.inr rfl)
      | ok versions =>
        rw [afterEnsure_search_ok c calls out v w versions h1 h2 h3] at he
        simp at he

lemma run_error_source {ε : Type} (str : ε → String) (c : Client ε) (e : ε)
    (he : (runScript str c).outcome = Except.error e) :
    c.set_tracking_uri ("http://localhost:5000") = Except.error e ∨
    c.create_registered_model MODEL_NAME createTags = Except.error e ∨
    c.create_model_version MODEL_NAME sourceLocator versionTags = Except.error e ∨
    c.get_model_version MODEL_NAME ("1") = Except.error e ∨
    c.search_model_versions searchFilter = Except.error e := by
  cases h1 : c.set_tracking_uri ("http://localhost:5000") with
  | error e2 =>
    rw [runScript_connect_error str c e2 h1] at he
    simp only [Except.error.injEq] at he
    subst he
    exact Or.inl rfl
  | ok u =>
    cases u
    cases h2 : c.create_registered_model MODEL_NAME createTags with
    | ok u =>
      cases u
      rw [runScript_create_ok str c h1 h2] at he
      exact Or.inr (Or.inr (afterEnsure_error_source c _ _ e he))
    | error e2 =>
      cases h3 : strContains (str e2) ("ALREADY_EXISTS") with
      | false =>
        rw [runScript_create_fatal str c e2 h1 h2 h3] at he
        simp only [Except.error.injEq] at he
        subst he
        exact Or.inr (Or.inl rfl)
      | true =>
        rw [runScript_create_already str c e2 h1 h2 h3] at he
        exact Or.inr (Or.inr (afterEnsure_error_source c _ _ e he))

lemma afterEnsure_calls_shape {ε : Type} (c : Client ε) (calls : List Call)
    (out : List String) :
    (afterEnsure c calls out).calls =
        calls ++ [Call.create_model_version MODEL_NAME sourceLocator versionTags] ∨
    (afterEnsure c calls out).calls =
        calls ++ [Call.create_model_version MODEL_NAME sourceLocator versionTags,
                  Call.get_model_version MODEL_NAME ("1")] ∨
    (afterEnsure c calls out).calls =
        calls ++ [Call.create_model_version MODEL_NAME sourceLocator versionTags,
                  Call.get_model_version MODEL_NAME ("1"),
                  Call.search_model_versions searchFilter] := by
  cases h1 : c.create_model_version MODEL_NAME sourceLocator versionTags with
  | error e =>
    rw [afterEnsure_version_error c calls out e h1]
    simp
  | ok v =>
    cases h2 : c.get_model_version MODEL_NAME ("1") with
    | error e =>
      rw [afterEnsure_get_error c calls out v e h1 h2]
      simp
    | ok w =>
      cases h3 : c.search_model_versions searchFilter with
      | error e =>
        rw [afterEnsure_search_error c calls out v w e h1 h2 h3]
        simp
      | ok versions =>
        rw [afterEnsure_search_ok c calls out v w versions h1 h2 h3]
        simp

lemma run_calls_shape {ε : Type} (str : ε → String) (c : Client ε) :
    ∃ n, (runScript str c).calls = fullCalls.take n := by
  cases h1 : c.set_tracking_uri ("http://localhost:5000") with
  | error e =>
    exact ⟨1, by rw [runScript_connect_error str c e h1]; rfl⟩
  | ok u =>
    cases u
    cases h2 : c.create_registered_model MODEL_NAME createTags with
    | ok u =>
      cases u
      rw [runScript_create_ok str c h1 h2]
      rcases afterEnsure_calls_shape c
          [Call.set_tracking_uri ("http://localhost:5000"),
           Call.create_registered_model MODEL_NAME createTags]
          ["Created model: " ++ MODEL_NAME] with h | h | h
      · exact ⟨3, by rw [h]; rfl⟩
      · exact ⟨4, by rw [h]; rfl⟩
      · exact ⟨5, by rw [h]; rfl⟩
    | error e =>
      cases h3 : strContains (str e) ("ALREADY_EXISTS") with
      | false =>
        exact ⟨2, by rw [runScript_create_fatal str c e h1 h2 h3]; rfl⟩
      | true =>
        rw [runScript_create_already str c e h1 h2 h3]
        rcases afterEnsure_calls_shape c
            [Call.set_tracking_uri ("http://localhost:5000"),
             Call.create_registered_model MODEL_NAME createTags]
            ["Model " ++ MODEL_NAME ++ " already exists"] with h | h | h
        · exact ⟨3, by rw [h]; rfl⟩
        · exact ⟨4, by rw [h]; rfl⟩
        · exact ⟨5, by rw [h]; rfl⟩

lemma afterEnsure_output_extends {ε : Type} (c : Client ε) (calls : List Call)
    (out : List String) :
    ∃ rest, (afterEnsure c calls out).output = out ++ rest := by
  cases h1 : c.create_model_version MODEL_NAME sourceLocator versionTags with
  | error e =>
    exact ⟨[], by rw [afterEnsure_version_error c calls out e h1]; simp⟩
  | ok v =>
    cases h2 : c.get_model_version MODEL_NAME ("1") with
    | error e =>
      exact ⟨["Created version"], by rw [afterEnsure_get_error c calls out v e h1 h2]⟩
    | ok w =>
      cases h3 : c.search_model_versions searchFilter with
      | error e =>
        exact ⟨["Created version", "Direct get works: v" ++ w.version,
                "\nTrying search_model_versions..."],
          by rw [afterEnsure_search_error c calls out v w e h1 h2 h3]⟩
      | ok versions =>
        exact ⟨["Created version", "Direct get works: v" ++ w.version,
                "\nTrying search_model_versions..."] ++ diagnose versions,
          by rw [afterEnsure_search_ok c calls out v w versions h1 h2 h3]; simp⟩

lemma afterEnsure_version_call_mem {ε : Type} (c : Client ε) (calls : List Call)
    (out : List String) :
    Call.create_model_version MODEL_NAME sourceLocator versionTags ∈
      (afterEnsure c calls out).calls := by
  rcases afterEnsure_calls_shape c calls out with h | h | h <;> rw [h] <;> simp

lemma afterEnsure_search_mem_ok {ε : Type} (c : Client ε) (calls : List Call)
    (out : List String) (vs : List ModelVersion)
    (hvs : c.search_model_versions searchFilter = Except.ok vs)
    (hcalls : Call.search_model_versions searchFilter ∉ calls)
    (hmem : Call.search_model_versions searchFilter ∈ (afterEnsure c calls out).calls) :
    (afterEnsure c calls out).outcome = Except.ok () := by
  cases h1 : c.create_model_version MODEL_NAME sourceLocator versionTags with
  | error e =>
    rw [afterEnsure_version_error c calls out e h1] at hmem
    simp only [List.mem_append, List.mem_singleton] at hmem
    rcases hmem with h | h
    · exact absurd h hcalls
    · exact absurd h (by decide)
  | ok v =>
    cases h2 : c.get_model_version MODEL_NAME ("1") with
    | error e =>
      rw [afterEnsure_get_error c calls out v e h1 h2] at hmem
      simp only [List.mem_append, List.mem_cons, List.mem_singleton] at hmem
      rcases hmem with h | h | h
      · exact absurd h hcalls
      · exact absurd h (by decide)
      · exact absurd h (by decide)
    | ok w =>
      cases h3 : c.search_model_versions searchFilter with
      | error e =>
        rw [hvs] at h3
        simp at h3
      | ok versions =>
        rw [afterEnsure_search_ok c calls out v w versions h1 h2 h3]

lemma exitCode_eq_zero {ε : Type} (r : RunResult ε) (h : r.outcome = Except.ok ()) :
    exitCode r = 0 := by
  unfold exitCode
  rw [h]

/-! ### Claim theorems -/

/-- Claim C1: in every run in which the search-versions operation returns an
empty sequence (and the run completes), the script prints the count line
with a count of 0 and then prints the two BUG CONFIRMED lines, in that
order, at the end of its output. -/
theorem search_empty_prints_bug {ε : Type} (str : ε → String) (c : Client ε)
    (hok : (runScript str c).outcome = Except.ok ())
    (hs : c.search_model_versions searchFilter = Except.ok []) :
    ∃ pre, (runScript str c).output =
      pre ++ ["Search returned: 0 versions (expected: >= 1)",
              "\n*** BUG CONFIRMED: search_model_versions returns empty ***",
              "The endpoint returns \x7b\x7d regardless of filter."] := by
  obtain ⟨first, v, w, versions, hv, hw, hs2, heq, hfirst⟩ := run_ok_shape str c hok
  rw [hs] at hs2
  simp only [Except.ok.injEq] at hs2
  subst hs2
  refine ⟨[first, "Created version", "Direct get works: v" ++ w.version,
           "\nTrying search_model_versions..."], ?_⟩
  rw [heq]
  have hd : diagnose [] =
      ["Search returned: 0 versions (expected: >= 1)",
       "\n*** BUG CONFIRMED: search_model_versions returns empty ***",
       "The endpoint returns \x7b\x7d regardless of filter."] := by decide
  simp [hd]

/-- Witness for C1: on a concrete client whose search returns the empty
sequence, the run prints the zero count and the BUG CONFIRMED lines. -/
theorem search_empty_prints_bug_witness :
    ∃ pre, (runScript id okEmptyClient).output =
      pre ++ ["Search returned: 0 versions (expected: >= 1)",
              "\n*** BUG CONFIRMED: search_model_versions returns empty ***",
              "The endpoint returns \x7b\x7d regardless of filter."] :=
  search_empty_prints_bug id okEmptyClient rfl rfl

/-- Claim C2: when create-entity fails with an error whose string form
contains ALREADY_EXISTS, the script prints the "already exists" line and
proceeds to the create-version call; if the run still ends with that same
exception, it was raised again by one of the later remote calls, not
re-raised from the create-entity step. -/
theorem already_exists_recovered {ε : Type} (str : ε → String) (c : Client ε) (e : ε)
    (h1 : c.set_tracking_uri ("http://localhost:5000") = Except.ok ())
    (h2 : c.create_registered_model MODEL_NAME createTags = Except.error e)
    (h3 : strContains (str e) ("ALREADY_EXISTS") = true) :
    ("Model test-search-bug already exists") ∈ (runScript str c).output ∧
    Call.create_model_version MODEL_NAME sourceLocator versionTags ∈
      (runScript str c).calls ∧
    ((runScript str c).outcome = Except.error e →
      c.create_model_version MODEL_NAME sourceLocator versionTags = Except.error e ∨
      c.get_model_version MODEL_NAME ("1") = Except.error e ∨
      c.search_model_versions searchFilter = Except.error e) := by
  rw [runScript_create_already str c e h1 h2 h3]
  refine ⟨?_, afterEnsure_version_call_mem c _ _, ?_⟩
  · obtain ⟨rest, hr⟩ := afterEnsure_output_extends c
      [Call.set_tracking_uri ("http://localhost:5000"),
       Call.create_registered_model MODEL_NAME createTags]
      ["Model " ++ MODEL_NAME ++ " already exists"]
    rw [hr]
    exact List.mem_append_left _ (by decide)
  · exact fun he => afterEnsure_error_source c _ _ e he

/-- Witness for C2: a concrete client whose create-entity call raises an
ALREADY_EXISTS error; the script prints the message and continues. -/
theorem already_exists_recovered_witness :
    ("Model test-search-bug already exists") ∈ (runScript id alreadyClient).output ∧
    Call.create_model_version MODEL_NAME sourceLocator versionTags ∈
      (runScript id alreadyClient).calls ∧
    ((runScript id alreadyClient).outcome =
        Except.error ("RESOURCE_ALREADY_EXISTS: registered model exists") →
      alreadyClient.create_model_version MODEL_NAME sourceLocator versionTags =
        Except.error ("RESOURCE_ALREADY_EXISTS: registered model exists") ∨
      alreadyClient.get_model_version MODEL_NAME ("1") =
        Except.error ("RESOURCE_ALREADY_EXISTS: registered model exists") ∨
      alreadyClient.search_model_versions searchFilter =
        Except.error ("RESOURCE_ALREADY_EXISTS: registered model exists")) :=
  already_exists_recovered id alreadyClient
    ("RESOURCE_ALREADY_EXISTS: registered model exists") rfl rfl (by decide)

/-- Claim C3: when create-entity fails with an error whose string form does
not contain ALREADY_EXISTS, the run stops there: the very same exception is
the outcome, no line is printed, and no remote call beyond the first two is
attempted. -/
theorem other_error_propagated {ε : Type} (str : ε → String) (c : Client ε) (e : ε)
    (h1 : c.set_tracking_uri ("http://localhost:5000") = Except.ok ())
    (h2 : c.create_registered_model MODEL_NAME createTags = Except.error e)
    (h3 : strContains (str e) ("ALREADY_EXISTS") = false) :
    runScript str c =
      ⟨[Call.set_tracking_uri ("http://localhost:5000"),
        Call.create_registered_model MODEL_NAME createTags], [], Except.error e⟩ :=
  runScript_create_fatal str c e h1 h2 h3

/-- Witness for C3: a concrete client whose create-entity call raises an
unrelated error; the run aborts with exactly that error after two calls. -/
theorem other_error_propagated_witness :
    runScript id fatalClient =
      ⟨[Call.set_tracking_uri ("http://localhost:5000"),
        Call.create_registered_model MODEL_NAME createTags], [],
        Except.error ("INTERNAL_ERROR: boom")⟩ :=
  other_error_propagated id fatalClient ("INTERNAL_ERROR: boom") rfl rfl (by decide)

/-- Claim C4: in every run in which the search-versions operation returns a
nonempty sequence (and the run completes), the script prints the count of
returned records and does not print the BUG CONFIRMED message. -/
theorem search_nonempty_no_bug {ε : Type} (str : ε → String) (c : Client ε)
    (vs : List ModelVersion)
    (hok : (runScript str c).outcome = Except.ok ())
    (hs : c.search_model_versions searchFilter = Except.ok vs)
    (hne : vs ≠ []) :
    ("Search returned: " ++ toString vs.length ++ " versions (expected: >= 1)") ∈
      (runScript str c).output ∧
    ("\n*** BUG CONFIRMED: search_model_versions returns empty ***") ∉
      (runScript str c).output := by
  obtain ⟨first, v, w, versions, hv, hw, hs2, heq, hfirst⟩ := run_ok_shape str c hok
  rw [hs] at hs2
  simp only [Except.ok.injEq] at hs2
  subst hs2
  have hd : diagnose vs =
      ["Search returned: " ++ toString vs.length ++ " versions (expected: >= 1)"] := by
    unfold diagnose
    rw [if_neg (fun h => hne (List.length_eq_zero.mp h))]
    simp
  rw [heq]
  constructor
  · simp [hd]
  · intro hmem
    rw [hd] at hmem
    simp only [List.append_assoc, List.cons_append, List.nil_append, List.mem_cons,
      List.not_mem_nil, or_false] at hmem
    rcases hmem with h | h | h | h | h
    · rcases hfirst with rfl | rfl
      · exact absurd h (by decide)
      · exact absurd h (by decide)
    · exact absurd h (by decide)
    · exact direct_line_ne_bug w.version h.symm
    · exact absurd h (by decide)
    · exact count_line_ne_bug vs.length h.symm

/-- Witness for C4: on a concrete client whose search finds one version, the
count line is printed and the BUG CONFIRMED line is not. -/
theorem search_nonempty_no_bug_witness :
    ("Search returned: " ++ toString ([vOne] : List ModelVersion).length ++
        " versions (expected: >= 1)") ∈ (runScript id okFoundClient).output ∧
    ("\n*** BUG CONFIRMED: search_model_versions returns empty ***") ∉
      (runScript id okFoundClient).output :=
  search_nonempty_no_bug id okFoundClient [vOne] rfl rfl (by decide)

/-- Claim C5: in every run, any get-version call the script makes carries
the entity name and the literal version identifier "1", whatever the
remote client returned at any step. -/
theorem get_version_literal_one {ε : Type} (str : ε → String) (c : Client ε)
    (n v : String)
    (h : Call.get_model_version n v ∈ (runScript str c).calls) :
    n = MODEL_NAME ∧ v = "1" := by
  obtain ⟨k, hk⟩ := run_calls_shape str c
  rw [hk] at h
  have hsub : Call.get_model_version n v ∈ fullCalls := List.take_subset k fullCalls h
  simp only [fullCalls, List.mem_cons, List.not_mem_nil, or_false] at hsub
  rcases hsub with h1 | h1 | h1 | h1 | h1
  · exact Call.noConfusion h1
  · exact Call.noConfusion h1
  · exact Call.noConfusion h1
  · simp only [Call.get_model_version.injEq] at h1
    exact h1
  · exact Call.noConfusion h1

/-- Witness for C5: on a concrete client the get-version call occurs, with
the fixed name and the literal identifier "1". -/
theorem get_version_literal_one_witness :
    "test-search-bug" = MODEL_NAME ∧ "1" = "1" :=
  get_version_literal_one id okFoundClient ("test-search-bug") ("1") (by decide)

lemma afterEnsure_error_stop {ε : Type} (c : Client ε) (calls : List Call)
    (out : List String) (e : ε)
    (he : (afterEnsure c calls out).outcome = Except.error e) :
    (c.create_model_version MODEL_NAME sourceLocator versionTags = Except.error e ∧
      (afterEnsure c calls out).calls =
        calls ++ [Call.create_model_version MODEL_NAME sourceLocator versionTags]) ∨
    (c.get_model_version MODEL_NAME ("1") = Except.error e ∧
      (afterEnsure c calls out).calls =
        calls ++ [Call.create_model_version MODEL_NAME sourceLocator versionTags,
                  Call.get_model_version MODEL_NAME ("1")]) ∨
    (c.search_model_versions searchFilter = Except.error e ∧
      (afterEnsure c calls out).calls =
        calls ++ [Call.create_model_version MODEL_NAME sourceLocator versionTags,
                  Call.get_model_version MODEL_NAME ("1"),
                  Call.search_model_versions searchFilter]) := by
  cases h1 : c.create_model_version MODEL_NAME sourceLocator versionTags with
  | error e2 =>
    rw [afterEnsure_version_error c calls out e2 h1] at he ⊢
    simp only [Except.error.injEq] at he
    subst he
    exact Or.inl ⟨rfl, rfl⟩
  | ok v =>
    cases h2 : c.get_model_version MODEL_NAME ("1") with
    | error e2 =>
      rw [afterEnsure_get_error c calls out v e2 h1 h2] at he ⊢
      simp only [Except.error.injEq] at he
      subst he
      exact Or.inr (Or.inl ⟨rfl, rfl⟩)
    | ok w =>
      cases h3 : c.search_model_versions searchFilter with
      | error e2 =>
        rw [afterEnsure_search_error c calls out v w e2 h1 h2 h3] at he ⊢
        simp only [Except.error.injEq] at he
        subst he
        exact Or.inr (Or.inr ⟨rfl, rfl⟩)
      | ok versions =>
        rw [afterEnsure_search_ok c calls out v w versions h1 h2 h3] at he
        simp at he

/-- Claim C6: the trace of remote calls of every run is an initial segment
of the fixed sequence connect, create-entity, create-version, get-version,
search; a run that completes normally performs all five; and a run that
aborts with an uncaught exception stops exactly at the call that raised it
— its trace is the initial segment ending with that very call, so no later
remote call is ever attempted after a fatal error. -/
theorem calls_linear_order {ε : Type} (str : ε → String) (c : Client ε) :
    (∃ n, (runScript str c).calls = fullCalls.take n) ∧
    ((runScript str c).outcome = Except.ok () →
      (runScript str c).calls = fullCalls) ∧
    (∀ e, (runScript str c).outcome = Except.error e →
      (c.set_tracking_uri ("http://localhost:5000") = Except.error e ∧
        (runScript str c).calls = fullCalls.take 1) ∨
      (c.create_registered_model MODEL_NAME createTags = Except.error e ∧
        (runScript str c).calls = fullCalls.take 2) ∨
      (c.create_model_version MODEL_NAME sourceLocator versionTags = Except.error e ∧
        (runScript str c).calls = fullCalls.take 3) ∨
      (c.get_model_version MODEL_NAME ("1") = Except.error e ∧
        (runScript str c).calls = fullCalls.take 4) ∨
      (c.search_model_versions searchFilter = Except.error e ∧
        (runScript str c).calls = fullCalls.take 5)) := by
  refine ⟨run_calls_shape str c, fun hok => ?_, fun e he => ?_⟩
  · obtain ⟨first, v, w, versions, hv, hw, hs, heq, hfirst⟩ := run_ok_shape str c hok
    rw [heq]
    rfl
  · cases h1 : c.set_tracking_uri ("http://localhost:5000") with
    | error e2 =>
      rw [runScript_connect_error str c e2 h1] at he ⊢
      simp only [Except.error.injEq] at he
      subst he
      exact Or.inl ⟨rfl, rfl⟩
    | ok u =>
      cases u
      cases h2 : c.create_registered_model MODEL_NAME createTags with
      | ok u =>
        cases u
        rw [runScript_create_ok str c h1 h2] at he ⊢
        rcases afterEnsure_error_stop c _ _ e he with ⟨hsrc, htr⟩ | ⟨hsrc, htr⟩ | ⟨hsrc, htr⟩
        · exact Or.inr (Or.inr (Or.inl ⟨hsrc, by rw [htr]; rfl⟩))
        · exact Or.inr (Or.inr (Or.inr (Or.inl ⟨hsrc, by rw [htr]; rfl⟩)))
        · exact Or.inr (Or.inr (Or.inr (Or.inr ⟨hsrc, by rw [htr]; rfl⟩)))
      | error e2 =>
        cases h3 : strContains (str e2) ("ALREADY_EXISTS") with
        | false =>
          rw [runScript_create_fatal str c e2 h1 h2 h3] at he ⊢
          simp only [Except.error.injEq] at he
          subst he
          exact Or.inr (Or.inl ⟨rfl, rfl⟩)
        | true =>
          rw [runScript_create_already str c e2 h1 h2 h3] at he ⊢
          rcases afterEnsure_error_stop c _ _ e he with ⟨hsrc, htr⟩ | ⟨hsrc, htr⟩ | ⟨hsrc, htr⟩
          · exact Or.inr (Or.inr (Or.inl ⟨hsrc, by rw [htr]; rfl⟩))
          · exact Or.inr (Or.inr (Or.inr (Or.inl ⟨hsrc, by rw [htr]; rfl⟩)))
          · exact Or.inr (Or.inr (Or.inr (Or.inr ⟨hsrc, by rw [htr]; rfl⟩)))

/-- Witness for C6: a concrete completing run performs exactly the five
calls in order, and a concrete run whose create-entity call raises a fatal
error stops after exactly the first two calls. -/
theorem calls_linear_order_witness :
    (runScript id okFoundClient).calls = fullCalls ∧
    (runScript id fatalClient).calls = fullCalls.take 2 := by
  refine ⟨(calls_linear_order id okFoundClient).2.1 rfl, ?_⟩
  rcases (calls_linear_order id fatalClient).2.2 ("INTERNAL_ERROR: boom") rfl with
    ⟨h1, h2⟩ | ⟨h1, h2⟩ | ⟨h1, h2⟩ | ⟨h1, h2⟩ | ⟨h1, h2⟩
  · exact Except.noConfusion h1
  · exact h2
  · exact Except.noConfusion h1
  · exact Except.noConfusion h1
  · exact Except.noConfusion h1

/-- Claim C7: the exit code is 0 exactly on normal completion; any run that
reaches the search call and gets an answer (including the empty answer
that takes the BUG CONFIRMED path) exits 0; and a nonzero exit happens only
when the outcome is an exception that one of the five remote calls raised. -/
theorem exit_code_semantics {ε : Type} (str : ε → String) (c : Client ε) :
    (exitCode (runScript str c) = 0 ↔ (runScript str c).outcome = Except.ok ()) ∧
    (∀ vs, c.search_model_versions searchFilter = Except.ok vs →
      Call.search_model_versions searchFilter ∈ (runScript str c).calls →
      exitCode (runScript str c) = 0) ∧
    (∀ e, (runScript str c).outcome = Except.error e →
      exitCode (runScript str c) ≠ 0 ∧
      (c.set_tracking_uri ("http://localhost:5000") = Except.error e ∨
       c.create_registered_model MODEL_NAME createTags = Except.error e ∨
       c.create_model_version MODEL_NAME sourceLocator versionTags = Except.error e ∨
       c.get_model_version MODEL_NAME ("1") = Except.error e ∨
       c.search_model_versions searchFilter = Except.error e)) := by
  refine ⟨⟨fun h0 => ?_, fun hok => exitCode_eq_zero _ hok⟩, fun vs hvs hmem => ?_, fun e he => ?_⟩
  · cases ho : (runScript str c).outcome with
    | ok u =>
      cases u
      rfl
    | error e =>
      unfold exitCode at h0
      rw [ho] at h0
      simp at h0
  · cases h1 : c.set_tracking_uri ("http://localhost:5000") with
    | error e =>
      rw [runScript_connect_error str c e h1] at hmem
      exact absurd hmem
        (show Call.search_model_versions searchFilter ∉
            ([Call.set_tracking_uri ("http://localhost:5000")] : List Call) by decide)
    | ok u =>
      cases u
      cases h2 : c.create_registered_model MODEL_NAME createTags with
      | ok u =>
        cases u
        rw [runScript_create_ok str c h1 h2] at hmem ⊢
        exact exitCode_eq_zero _ (afterEnsure_search_mem_ok c _ _ vs hvs (by decide) hmem)
      | error e =>
        cases h3 : strContains (str e) ("ALREADY_EXISTS") with
        | false =>
          rw [runScript_create_fatal str c e h1 h2 h3] at hmem
          exact absurd hmem
            (show Call.search_model_versions searchFilter ∉
                ([Call.set_tracking_uri ("http://localhost:5000"),
                  Call.create_registered_model MODEL_NAME createTags] : List Call) by
              decide)
        | true =>
          rw [runScript_create_already str c e h1 h2 h3] at hmem ⊢
          exact exitCode_eq_zero _ (afterEnsure_search_mem_ok c _ _ vs hvs (by decide) hmem)
  · refine ⟨?_, run_error_source str c e he⟩
    unfold exitCode
    rw [he]
    simp

/-- Witness for C7: the concrete bug-confirming run (search reached, empty
answer) exits with code 0. -/
theorem exit_code_semantics_witness :
    exitCode (runScript id okEmptyClient) = 0 :=
  (exit_code_semantics id okEmptyClient).2.1 [] rfl (by decide)

/-- Claim C8: with the connection up and create-entity failing with
exception e, the run recovers (reaching the create-version call) exactly
when the string form of e contains the substring ALREADY_EXISTS; for any
other message the run stops at once with e itself. -/
theorem already_exists_substring_split {ε : Type} (str : ε → String) (c : Client ε)
    (e : ε)
    (h1 : c.set_tracking_uri ("http://localhost:5000") = Except.ok ())
    (h2 : c.create_registered_model MODEL_NAME createTags = Except.error e) :
    (Call.create_model_version MODEL_NAME sourceLocator versionTags ∈
        (runScript str c).calls ↔
      ∃ p q : String, str e = p ++ "ALREADY_EXISTS" ++ q) ∧
    (¬ (∃ p q : String, str e = p ++ "ALREADY_EXISTS" ++ q) →
      runScript str c =
        ⟨[Call.set_tracking_uri ("http://localhost:5000"),
          Call.create_registered_model MODEL_NAME createTags], [], Except.error e⟩) := by
  have hiff := strContains_iff (str e) ("ALREADY_EXISTS")
  cases h3 : strContains (str e) ("ALREADY_EXISTS") with
  | true =>
    rw [runScript_create_already str c e h1 h2 h3]
    refine ⟨⟨fun _ => hiff.mp h3, fun _ => afterEnsure_version_call_mem c _ _⟩, ?_⟩
    intro hn
    exact absurd (hiff.mp h3) hn
  | false =>
    rw [runScript_create_fatal str c e h1 h2 h3]
    refine ⟨⟨fun hmem => absurd hmem
      (show Call.create_model_version MODEL_NAME sourceLocator versionTags ∉
          ([Call.set_tracking_uri ("http://localhost:5000"),
            Call.create_registered_model MODEL_NAME createTags] : List Call) by decide),
      fun hex => ?_⟩, fun _ => rfl⟩
    have hb : strContains (str e) ("ALREADY_EXISTS") = true := hiff.mpr hex
    rw [h3] at hb
    exact absurd hb (by decide)

/-- Witness for C8: on a concrete ALREADY_EXISTS error, the substring split
recovers and the create-version call is reached. -/
theorem already_exists_substring_split_witness :
    Call.create_model_version MODEL_NAME sourceLocator versionTags ∈
      (runScript id alreadyClient).calls :=
  (already_exists_substring_split id alreadyClient
      ("RESOURCE_ALREADY_EXISTS: registered model exists") rfl rfl).1.mpr
    ⟨"RESOURCE_", ": registered model exists", by decide⟩

/-- Claim C9: every remote call of every run uses the fixed entity name
test-search-bug: create-entity receives it as the name, create-version
receives it as the name with the source locator embedding it, get-version
receives it as the name, and the search filter is exactly the
name-equals-quoted-entity string. -/
theorem fixed_entity_name {ε : Type} (str : ε → String) (c : Client ε) :
    (∀ n t, Call.create_registered_model n t ∈ (runScript str c).calls →
      n = "test-search-bug") ∧
    (∀ n s t, Call.create_model_version n s t ∈ (runScript str c).calls →
      n = "test-search-bug" ∧ s = "mlflow-artifacts:/test-search-bug") ∧
    (∀ n v, Call.get_model_version n v ∈ (runScript str c).calls →
      n = "test-search-bug") ∧
    (∀ f, Call.search_model_versions f ∈ (runScript str c).calls →
      f = "name=\x27test-search-bug\x27") := by
  obtain ⟨k, hk⟩ := run_calls_shape str c
  have hsub : ∀ x, x ∈ (runScript str c).calls → x ∈ fullCalls := by
    rw [hk]
    exact fun x hx => List.take_subset k fullCalls hx
  refine ⟨fun n t h => ?_, fun n s t h => ?_, fun n v h => ?_, fun f h => ?_⟩
  · have h1 := hsub _ h
    simp only [fullCalls, List.mem_cons, List.not_mem_nil, or_false] at h1
    rcases h1 with h1 | h1 | h1 | h1 | h1
    · exact Call.noConfusion h1
    · simp only [Call.create_registered_model.injEq] at h1
      rw [h1.1]
      decide
    · exact Call.noConfusion h1
    · exact Call.noConfusion h1
    · exact Call.noConfusion h1
  · have h1 := hsub _ h
    simp only [fullCalls, List.mem_cons, List.not_mem_nil, or_false] at h1
    rcases h1 with h1 | h1 | h1 | h1 | h1
    · exact Call.noConfusion h1
    · exact Call.noConfusion h1
    · simp only [Call.create_model_version.injEq] at h1
      refine ⟨by rw [h1.1]; decide, by rw [h1.2.1]; decide⟩
    · exact Call.noConfusion h1
    · exact Call.noConfusion h1
  · have h1 := hsub _ h
    simp only [fullCalls, List.mem_cons, List.not_mem_nil, or_false] at h1
    rcases h1 with h1 | h1 | h1 | h1 | h1
    · exact Call.noConfusion h1
    · exact Call.noConfusion h1
    · exact Call.noConfusion h1
    · simp only [Call.get_model_version.injEq] at h1
      rw [h1.1]
      decide
    · exact Call.noConfusion h1
  · have h1 := hsub _ h
    simp only [fullCalls, List.mem_cons, List.not_mem_nil, or_false] at h1
    rcases h1 with h1 | h1 | h1 | h1 | h1
    · exact Call.noConfusion h1
    · exact Call.noConfusion h1
    · exact Call.noConfusion h1
    · exact Call.noConfusion h1
    · simp only [Call.search_model_versions.injEq] at h1
      rw [h1]
      decide

/-- Witness for C9: on a concrete run the create-version call occurs and
carries the fixed name and source locator. -/
theorem fixed_entity_name_witness :
    "test-search-bug" = "test-search-bug" ∧
    "mlflow-artifacts:/test-search-bug" = "mlflow-artifacts:/test-search-bug" :=
  (fixed_entity_name id okFoundClient).2.1 ("test-search-bug")
    ("mlflow-artifacts:/test-search-bug") versionTags (by decide)

/-- Claim C10: two runs whose clients behave identically at every operation
produce identical standard output and the same termination outcome. -/
theorem run_deterministic {ε : Type} (str : ε → String) (c c2 : Client ε)
    (h1 : ∀ u, c.set_tracking_uri u = c2.set_tracking_uri u)
    (h2 : ∀ n t, c.create_registered_model n t = c2.create_registered_model n t)
    (h3 : ∀ n s t, c.create_model_version n s t = c2.create_model_version n s t)
    (h4 : ∀ n v, c.get_model_version n v = c2.get_model_version n v)
    (h5 : ∀ f, c.search_model_versions f = c2.search_model_versions f) :
    (runScript str c).output = (runScript str c2).output ∧
    (runScript str c).outcome = (runScript str c2).outcome := by
  have hc : c = c2 := by
    cases c with
    | mk f1 f2 f3 f4 f5 =>
      cases c2 with
      | mk g1 g2 g3 g4 g5 =>
        simp only [Client.mk.injEq]
        exact ⟨funext h1, funext fun n => funext fun t => h2 n t,
          funext fun n => funext fun s => funext fun t => h3 n s t,
          funext fun n => funext fun v => h4 n v, funext h5⟩
  rw [hc]
  exact ⟨rfl, rfl⟩

/-- Witness for C10: the pointwise-equal-behavior hypotheses are satisfiable
(for instance by a client and itself), and then outputs and outcomes agree. -/
theorem run_deterministic_witness :
    (runScript id okFoundClient).output = (runScript id okFoundClient).output ∧
    (runScript id okFoundClient).outcome = (runScript id okFoundClient).outcome :=
  run_deterministic id okFoundClient okFoundClient (fun _ => rfl) (fun _ _ => rfl)
    (fun _ _ _ => rfl) (fun _ _ => rfl) (fun _ => rfl)
